import Mathlib

/-!
Verification of the CTD Stability Document Generator repository.

The repository stores all application state in browser localStorage through
the client in src/frontend/src/api/client.ts.  Each storage key holds either
a JSON array or a JSON object keyed by id; objects are embedded here as
association lists (List (String × α)) with JS object semantics (first key
wins on lookup, `delete obj[k]` removes the key, `obj[k] = v` overwrites in
place or appends).  Nondeterministic inputs of the source (generated ids,
`new Date().toISOString()`) are passed in as explicit parameters.
-/

namespace CTD

/-- Lookup in a JS-object modelled as an association list: first matching key. -/
def kvGet {α : Type} : List (String × α) → String → Option α
  | [], _ => none
  | kv :: rest, k => if kv.1 = k then some kv.2 else kvGet rest k

/-- JS `obj[k] = v`: overwrite the existing key in place, else append. -/
def kvSet {α : Type} : List (String × α) → String → α → List (String × α)
  | [], k, v => [(k, v)]
  | kv :: rest, k, v => if kv.1 = k then (k, v) :: rest else kv :: kvSet rest k v

/-- JS `delete obj[k]`: remove the key (all occurrences, keeping order). -/
def kvErase {α : Type} : List (String × α) → String → List (String × α)
  | [], _ => []
  | kv :: rest, k => if kv.1 = k then kvErase rest k else kv :: kvErase rest k

/-- Erase a list of keys in order (models a forEach of `delete obj[k]`). -/
def kvEraseAll {α : Type} (l : List (String × α)) (ks : List String) : List (String × α) :=
  ks.foldl (fun acc k => kvErase acc k) l

theorem kvGet_kvErase_self {α : Type} (l : List (String × α)) (k : String) :
    kvGet (kvErase l k) k = none := by
  induction l with
  | nil => rfl
  | cons kv rest ih =>
    rcases kv with ⟨k1, v1⟩
    simp only [kvErase]
    by_cases hk : k1 = k
    · rw [if_pos hk]; exact ih
    · rw [if_neg hk]; simp only [kvGet]; rw [if_neg hk]; exact ih

theorem kvGet_kvErase_ne {α : Type} (l : List (String × α)) (k k2 : String)
    (h : k2 ≠ k) : kvGet (kvErase l k) k2 = kvGet l k2 := by
  induction l with
  | nil => rfl
  | cons kv rest ih =>
    rcases kv with ⟨k1, v1⟩
    simp only [kvErase, kvGet]
    by_cases hk : k1 = k
    · rw [if_pos hk, ih, if_neg (fun e : k1 = k2 => h (e ▸ hk))]
    · rw [if_neg hk]
      simp only [kvGet]
      by_cases hk2 : k1 = k2
      · rw [if_pos hk2, if_pos hk2]
      · rw [if_neg hk2, if_neg hk2]; exact ih

theorem kvGet_kvErase_none {α : Type} (l : List (String × α)) (k k2 : String)
    (h : kvGet l k2 = none) : kvGet (kvErase l k) k2 = none := by
  induction l with
  | nil => rfl
  | cons kv rest ih =>
    rcases kv with ⟨k1, v1⟩
    simp only [kvGet] at h
    by_cases hk2 : k1 = k2
    · rw [if_pos hk2] at h; simp at h
    · rw [if_neg hk2] at h
      simp only [kvErase]
      by_cases hk : k1 = k
      · rw [if_pos hk]; exact ih h
      · rw [if_neg hk]; simp only [kvGet]; rw [if_neg hk2]; exact ih h

theorem kvGet_kvEraseAll_none {α : Type} (ks : List String)
    (l : List (String × α)) (k : String)
    (h : kvGet l k = none) : kvGet (kvEraseAll l ks) k = none := by
  induction ks generalizing l with
  | nil => exact h
  | cons k0 ks ih => exact ih (kvErase l k0) (kvGet_kvErase_none l k0 k h)

theorem kvGet_kvEraseAll_mem {α : Type} (ks : List String)
    (l : List (String × α)) (k : String)
    (h : k ∈ ks) : kvGet (kvEraseAll l ks) k = none := by
  induction ks generalizing l with
  | nil => cases h
  | cons k0 ks ih =>
    rcases List.mem_cons.mp h with h0 | h0
    · subst h0
      exact kvGet_kvEraseAll_none ks (kvErase l k) k (kvGet_kvErase_self l k)
    · exact ih (kvErase l k0) h0

theorem kvGet_kvEraseAll_not_mem {α : Type} (ks : List String)
    (l : List (String × α)) (k : String)
    (h : k ∉ ks) : kvGet (kvEraseAll l ks) k = kvGet l k := by
  induction ks generalizing l with
  | nil => rfl
  | cons k0 ks ih =>
    have h0 : k ≠ k0 := fun e => h (by simp [e])
    have h1 : k ∉ ks := fun e => h (by simp [e])
    calc kvGet (kvEraseAll (kvErase l k0) ks) k
        = kvGet (kvErase l k0) k := ih (kvErase l k0) h1
      _ = kvGet l k := kvGet_kvErase_ne l k0 k h0

theorem kvGet_kvSet_self {α : Type} (l : List (String × α)) (k : String) (v : α) :
    kvGet (kvSet l k v) k = some v := by
  induction l with
  | nil => simp [kvSet, kvGet]
  | cons kv rest ih =>
    rcases kv with ⟨k1, v1⟩
    simp only [kvSet]
    by_cases hk : k1 = k
    · rw [if_pos hk]; simp [kvGet]
    · rw [if_neg hk]; simp only [kvGet]; rw [if_neg hk]; exact ih

theorem kvGet_kvSet_ne {α : Type} (l : List (String × α)) (k k2 : String) (v : α)
    (h : k2 ≠ k) : kvGet (kvSet l k v) k2 = kvGet l k2 := by
  induction l with
  | nil =>
    simp only [kvSet, kvGet]
    rw [if_neg (fun e : k = k2 => h e.symm)]
  | cons kv rest ih =>
    rcases kv with ⟨k1, v1⟩
    simp only [kvSet]
    by_cases hk : k1 = k
    · rw [if_pos hk]
      simp only [kvGet]
      rw [if_neg (fun e : k = k2 => h e.symm), if_neg (fun e : k1 = k2 => h (e ▸ hk))]
    · rw [if_neg hk]
      simp only [kvGet]
      by_cases hk2 : k1 = k2
      · rw [if_pos hk2, if_pos hk2]
      · rw [if_neg hk2, if_neg hk2]; exact ih

/-!
Embedding of the regulatory endpoints of src/frontend/src/api/client.ts.
-/

/-- One evaluation entry of the report (types.ts, RuleEvaluation). -/
structure RuleEvaluation where
  rule_id : String
  rule_id_code : String
  result : String
  severity : String
  details : String
  waiver_justification : Option String := none
deriving DecidableEq, Repr

/-- The evaluation report (types.ts, RuleEvaluationReport). -/
structure RuleEvaluationReport where
  timestamp : String
  can_proceed : Bool
  blocking_failures : List RuleEvaluation
  warnings : List RuleEvaluation
  passes : List RuleEvaluation
  waivers : List RuleEvaluation
deriving DecidableEq, Repr

namespace regulatory

/-- client.ts regulatory.evaluate (lines 903-918): returns a hard-coded
report; `now` stands for `new Date().toISOString()` at call time. -/
def evaluate (_projectId : String) (now : String) : RuleEvaluationReport :=
  { timestamp := now
  , can_proceed := true
  , blocking_failures := []
  , warnings :=
      [ { rule_id := "rule-001", rule_id_code := "Q1A-005", result := "FAIL"
        , severity := "WARN", details := "Retest period not explicitly stated" } ]
  , passes :=
      [ { rule_id := "rule-002", rule_id_code := "Q1A-001", result := "PASS"
        , severity := "BLOCK", details := "Quality attributes defined" }
      , { rule_id := "rule-003", rule_id_code := "Q1A-002", result := "PASS"
        , severity := "BLOCK", details := "Primary batches included" } ]
  , waivers := [] }

namespace waivers

/-- Return value of client.ts regulatory.waivers.add. -/
structure AddResult where
  rule_id_code : String
  status : String
deriving DecidableEq, Repr

/-- client.ts regulatory.waivers.add (lines 926-929): ignores the project id
and the justification, touches no storage, never throws, and resolves with
a fixed success value. -/
def add (_projectId : String) (ruleIdCode : String) (_justification : String) :
    AddResult :=
  { rule_id_code := ruleIdCode, status := "waived" }

end waivers

/-- A rule record as written by client.ts regulatory.guidelines.allocate and
mutated by updateRuleStatus (a Partial of types.ts RegulatoryRule: only
these fields are ever set). -/
structure StoredRule where
  id : String
  rule_id_code : String
  rule_text : String
  status : String
  validation_severity : String
  override_justification : Option String := none
deriving DecidableEq, Repr

/-- The ctd_rules storage object: guideline id → its rule list. -/
def RulesStore : Type := List (String × List StoredRule)

/-- A guideline record (the fields client.ts reads or writes). -/
structure Guideline where
  id : String
  title : String
  agency : String
  is_active : Bool
  allocation_pack_count : Nat
deriving DecidableEq, Repr

namespace guidelines

/-- The three sample rules client.ts regulatory.guidelines.allocate writes
for a guideline (lines 843-847); id1-id3 stand for the generated ids. -/
def sampleRules (id1 id2 id3 : String) : List StoredRule :=
  [ { id := id1, rule_id_code := "Q1A-001"
    , rule_text := "Testing frequency for long-term studies"
    , status := "pending_review", validation_severity := "BLOCK" }
  , { id := id2, rule_id_code := "Q1A-002"
    , rule_text := "Minimum number of batches"
    , status := "pending_review", validation_severity := "BLOCK" }
  , { id := id3, rule_id_code := "Q1A-003"
    , rule_text := "Storage conditions specification"
    , status := "pending_review", validation_severity := "WARN" } ]

/-- Mark the first guideline with the given id active with one allocation
pack (the in-place mutation of the found guideline in allocate). -/
def activateFirst : List Guideline → String → List Guideline
  | [], _ => []
  | g :: rest, gid =>
      if g.id = gid then
        { g with is_active := true, allocation_pack_count := 1 } :: rest
      else g :: activateFirst rest gid

/-- client.ts regulatory.guidelines.allocate (lines 831-851): activates the
guideline if found and overwrites its rules entry with the three sample
rules, every one with status pending_review. -/
def allocate (gs : List Guideline) (store : RulesStore) (guidelineId : String)
    (id1 id2 id3 : String) : List Guideline × RulesStore :=
  (activateFirst gs guidelineId,
   kvSet store guidelineId (sampleRules id1 id2 id3))

/-- The per-rule mutation of updateRuleStatus: always overwrite status; set
override_justification only when the justification argument is truthy
(JS `if (justification)`: undefined and the empty string are falsy). -/
def applyRuleUpdate (r : StoredRule) (status : String)
    (justification : Option String) : StoredRule :=
  let r1 := { r with status := status }
  match justification with
  | some j => if j = "" then r1 else { r1 with override_justification := some j }
  | none => r1

/-- Mutate the first rule with the given id (JS `rules.find`). -/
def updateFirstRule : List StoredRule → String → String → Option String →
    List StoredRule
  | [], _, _, _ => []
  | r :: rest, rid, st, j =>
      if r.id = rid then applyRuleUpdate r st j :: rest
      else r :: updateFirstRule rest rid st j

/-- client.ts regulatory.guidelines.updateRuleStatus (lines 860-873). -/
def updateRuleStatus (store : RulesStore) (guidelineId ruleId status : String)
    (justification : Option String) : RulesStore :=
  match kvGet store guidelineId with
  | none => store
  | some rules => kvSet store guidelineId (updateFirstRule rules ruleId status justification)

end guidelines

end regulatory

/-!
Embedding of the project/document CRUD endpoints of client.ts and of the
localStorage state they share.
-/

structure UserSummary where
  id : String
  display_name : String
  role : String
deriving DecidableEq, Repr

structure Project where
  id : String
  name : String
  description : Option String := none
  status : String
  clinical_phase : Option String := none
  numbering_mode : Option String := none
  created_by : UserSummary
  document_count : Nat
  created_at : String
  updated_at : String
deriving DecidableEq, Repr

structure DocumentFile where
  id : String
  filename : String
  original_filename : String
  file_type : String
  classification : String
  authority : String
  checksum_sha256 : String
  file_size_bytes : Nat
  uploaded_at : String
deriving DecidableEq, Repr

structure Study where
  id : String
  product_id : String
  study_type : String
  study_label : Option String := none
  protocol_id : Option String := none
  extraction_status : String
deriving DecidableEq, Repr

structure Lot where
  id : String
  lot_number : String
  manufacturer : Option String := none
  manufacturing_site : Option String := none
  extraction_status : String
deriving DecidableEq, Repr

structure StorageCondition where
  id : String
  label : String
  temperature_setpoint : Option Int := none
  humidity : Option String := none
  display_order : Nat
  extraction_status : String
deriving DecidableEq, Repr

structure QualityAttribute where
  id : String
  name : String
  method_group : Option String := none
  analytical_procedure : Option String := none
  display_order : Nat
  extraction_status : String
deriving DecidableEq, Repr

/-- A generation run as stored (client.ts adds project_id to the base type;
older or malformed rows may lack it, hence the Option). -/
structure GenerationRun where
  run_id : String
  project_id : Option String := none
  status : String
  created_at : String
  completed_at : Option String := none
deriving DecidableEq, Repr

/-- The localStorage state of client.ts: one field per storage key. -/
structure Storage where
  projects : List Project
  documents : List (String × List DocumentFile)
  document_texts : List (String × String)
  studies : List (String × List Study)
  lots : List (String × List Lot)
  conditions : List (String × List StorageCondition)
  attributes : List (String × List QualityAttribute)
  generation_runs : List GenerationRun
  generated_html : List (String × String)
deriving DecidableEq, Repr

namespace projects

/-- client.ts projects.delete (lines 102-149): removes the project from
ctd_projects, erases the texts of its documents, its ctd_documents /
ctd_studies / ctd_lots / ctd_conditions / ctd_attributes entries, its
generation runs and the generated HTML of those runs. -/
def delete (s : Storage) (id : String) : Storage :=
  let filtered := s.projects.filter (fun p => p.id != id)
  let projectDocs := (kvGet s.documents id).getD []
  let allTexts := kvEraseAll s.document_texts (projectDocs.map (fun d => d.id))
  let docs := kvErase s.documents id
  let allStudies := kvErase s.studies id
  let allLots := kvErase s.lots id
  let allConditions := kvErase s.conditions id
  let allAttributes := kvErase s.attributes id
  let filteredRuns := s.generation_runs.filter (fun r => r.project_id != some id)
  let htmlStorage := kvEraseAll s.generated_html
    ((s.generation_runs.filter (fun r => r.project_id == some id)).map (fun r => r.run_id))
  { projects := filtered, documents := docs, document_texts := allTexts
  , studies := allStudies, lots := allLots, conditions := allConditions
  , attributes := allAttributes, generation_runs := filteredRuns
  , generated_html := htmlStorage }

end projects

/-- Mutate the first project with the given id (JS `projects.find` followed
by an in-place field assignment and a full write-back). -/
def updateFirstProject : List Project → String → (Project → Project) → List Project
  | [], _, _ => []
  | p :: rest, pid, f =>
      if p.id = pid then f p :: rest else p :: updateFirstProject rest pid f

namespace documents

/-- JS `filename.split(".").pop() || "unknown"`. -/
def fileTypeOf (filename : String) : String :=
  match (filename.splitOn ".").getLast? with
  | some t => if t = "" then "unknown" else t
  | none => "unknown"

/-- JS `(classification as DocumentClassification) || "other_supporting"`. -/
def classificationOf (classification : Option String) : String :=
  match classification with
  | some c => if c = "" then "other_supporting" else c
  | none => "other_supporting"

/-- client.ts documents.upload (lines 161-195): appends the new document to
the project's list, stores its extracted text under the document id, and
sets the project's document_count to the new list length when the project
exists.  docId and now stand for the generated id and the upload time. -/
def upload (s : Storage) (projectId filename extractedText : String)
    (classification : Option String) (docId now : String) :
    Storage × DocumentFile :=
  let docsForProject := (kvGet s.documents projectId).getD []
  let newDoc : DocumentFile :=
    { id := docId, filename := filename, original_filename := filename
    , file_type := fileTypeOf filename
    , classification := classificationOf classification
    , authority := "supporting", checksum_sha256 := "local-storage"
    , file_size_bytes := extractedText.length, uploaded_at := now }
  let docs2 := kvSet s.documents projectId (docsForProject ++ [newDoc])
  let texts2 := kvSet s.document_texts docId extractedText
  let projs2 := updateFirstProject s.projects projectId
    (fun p => { p with document_count := (docsForProject ++ [newDoc]).length })
  ({ s with documents := docs2, document_texts := texts2, projects := projs2 },
   newDoc)

/-- client.ts documents.delete (lines 212-232): when the project has a
documents entry, filters out the document, erases its text, and sets the
project's document_count to the remaining list length when the project
exists; otherwise a no-op. -/
def delete (s : Storage) (projectId docId : String) : Storage :=
  match kvGet s.documents projectId with
  | none => s
  | some ds =>
      let ds2 := ds.filter (fun d => d.id != docId)
      let docs2 := kvSet s.documents projectId ds2
      let texts2 := kvErase s.document_texts docId
      let projs2 := updateFirstProject s.projects projectId
        (fun p => { p with document_count := ds2.length })
      { s with documents := docs2, document_texts := texts2, projects := projs2 }

end documents

/-- The stored document_count of every project equals the number of stored
documents for that project. -/
def docCountInv (s : Storage) : Bool :=
  s.projects.all (fun p => p.document_count == ((kvGet s.documents p.id).getD []).length)

/-!
Modelled from the spec: the Expression Evaluator and the Rule Evaluation
Orchestrator (spec sections 4.1 and 4.4) are not implemented anywhere in
the source tree — only their data declarations exist (types.ts
RuleEvaluation, the rule_evaluation_log table).  The definitions below
follow the spec's grammar and evaluation/aggregation rules literally.
-/

/-- Modelled from the spec: the validation-logic AST of section 9
(FieldPresent, And, If, ManualReview). -/
inductive LExpr where
  | fieldPresent (path : String)
  | andE (l r : LExpr)
  | ifThen (c t : LExpr)
  | manualReview
deriving DecidableEq, Repr

/-- The single-quote character, written by code point. -/
def squoteChar : Char := Char.ofNat 39

/-- Split a character list into whitespace-separated words. -/
def tokenizeAux : List Char → List Char → List (List Char)
  | [], acc => [acc.reverse]
  | c :: rest, acc =>
      if c = ' ' then acc.reverse :: tokenizeAux rest []
      else tokenizeAux rest (c :: acc)

/-- Tokenize a validation_logic string into nonempty words. -/
def tokenize (s : String) : List (List Char) :=
  (tokenizeAux s.data []).filter (fun t => !t.isEmpty)

/-- Strip an expected leading character sequence, or fail. -/
def stripLeading : List Char → List Char → Option (List Char)
  | [], rest => some rest
  | _, [] => none
  | p :: ps, c :: cs => if c = p then stripLeading ps cs else none

/-- Modelled from the spec: recognise one token of the form
field_present( STRING ) with the string single-quoted, yielding the path. -/
def parseFieldToken (t : List Char) : Option String :=
  match stripLeading "field_present(".data t with
  | none => none
  | some r1 =>
      match r1 with
      | [] => none
      | c :: rest =>
          if c = squoteChar then
            match rest.reverse with
            | p1 :: p2 :: rpath =>
                if p1 = ')' && p2 = squoteChar then
                  some (String.mk rpath.reverse)
                else none
            | _ => none
          else none

mutual

/-- Modelled from the spec: primary := field_present(STRING)
| IF expr THEN expr | manual_review_required.  Fuel makes the parser total. -/
def parsePrimary : Nat → List (List Char) → Option (LExpr × List (List Char))
  | 0, _ => none
  | _ + 1, [] => none
  | fuel + 1, t :: rest =>
    if t = "manual_review_required".data then some (.manualReview, rest)
    else if t = "IF".data then
      match parseExprFuel fuel rest with
      | some (c, rest1) =>
        match rest1 with
        | t2 :: rest2 =>
          if t2 = "THEN".data then
            match parseExprFuel fuel rest2 with
            | some (b, rest3) => some (.ifThen c b, rest3)
            | none => none
          else none
        | [] => none
      | none => none
    else
      match parseFieldToken t with
      | some p => some (.fieldPresent p, rest)
      | none => none

/-- Modelled from the spec: fold a left-associated chain of AND. -/
def parseAndChain : Nat → LExpr → List (List Char) → Option (LExpr × List (List Char))
  | 0, _, _ => none
  | _ + 1, acc, [] => some (acc, [])
  | fuel + 1, acc, t :: rest =>
    if t = "AND".data then
      match parsePrimary fuel rest with
      | some (p, rest2) => parseAndChain fuel (.andE acc p) rest2
      | none => none
    else some (acc, t :: rest)

/-- Modelled from the spec: expr := primary (AND primary)*. -/
def parseExprFuel : Nat → List (List Char) → Option (LExpr × List (List Char))
  | 0, _ => none
  | fuel + 1, toks =>
    match parsePrimary fuel toks with
    | some (p, rest) => parseAndChain fuel p rest
    | none => none

end

/-- Modelled from the spec: total parse of a validation_logic string; the
whole token list must be consumed. -/
def parseValidationLogic (s : String) : Option LExpr :=
  let toks := tokenize s
  match parseExprFuel (2 * toks.length + 2) toks with
  | some (e, []) => some e
  | _ => none

/-- Modelled from the spec: the ProjectContext as the flat field-path
namespace the evaluator reads — every registered path mapped to the
already-resolved presence fact (non-null/non-empty value, or count > 0). -/
structure ProjectContext where
  fields : List (String × Bool)
deriving DecidableEq, Repr

/-- Modelled from the spec: the outcome lattice of one expression —
satisfied, not satisfied, the MANUAL sentinel, or a hard error naming an
unresolved path. -/
inductive Outcome where
  | sat
  | unsat
  | manual
  | unknownPath (path : String)
deriving DecidableEq, Repr

/-- Modelled from the spec (section 4.1 semantics): field_present fails
closed on unknown paths; AND short-circuits left to right; IF a THEN b is
vacuously satisfied when a is not; manual_review_required is MANUAL. -/
def evalLExpr (ctx : ProjectContext) : LExpr → Outcome
  | .fieldPresent p =>
      match kvGet ctx.fields p with
      | some true => .sat
      | some false => .unsat
      | none => .unknownPath p
  | .andE l r =>
      match evalLExpr ctx l with
      | .sat => evalLExpr ctx r
      | .unsat => .unsat
      | o => o
  | .ifThen c t =>
      match evalLExpr ctx c with
      | .sat => evalLExpr ctx t
      | .unsat => .sat
      | o => o
  | .manualReview => .manual

/-- Modelled from the spec: the per-rule result of the orchestrator —
PASS, FAIL with details, or the MANUAL sentinel (neither PASS nor FAIL). -/
inductive RuleResult where
  | PASS
  | FAIL (details : String)
  | MANUAL
deriving DecidableEq, Repr

/-- Modelled from the spec: evaluate one validation_logic string; malformed
logic and unknown paths evaluate to FAIL with a diagnostic message. -/
def evaluateLogic (ctx : ProjectContext) (logic : String) : RuleResult :=
  match parseValidationLogic logic with
  | none => .FAIL ("parse error in validation_logic: " ++ logic)
  | some e =>
      match evalLExpr ctx e with
      | .sat => .PASS
      | .unsat => .FAIL "condition not satisfied"
      | .manual => .MANUAL
      | .unknownPath p => .FAIL ("unresolved field path: " ++ p)

/-- Modelled from the spec: validation severity. -/
inductive Severity where
  | BLOCK
  | WARN
deriving DecidableEq, Repr, BEq

/-- Modelled from the spec: the slice of a confirmed rule the orchestrator
needs. -/
structure SpecRule where
  rule_id : String
  rule_id_code : String
  validation_severity : Severity
  validation_logic : String
deriving DecidableEq, Repr

/-- Modelled from the spec (section 4.4 step 7): the recorded result —
a FAIL with an active waiver is recorded WAIVED with the justification,
the FAIL details preserved. -/
inductive RecordedResult where
  | PASS
  | FAIL (details : String)
  | WAIVED (justification details : String)
  | MANUAL
deriving DecidableEq, Repr

def RecordedResult.isFail : RecordedResult → Bool
  | .FAIL _ => true
  | _ => false

def RecordedResult.isPass : RecordedResult → Bool
  | .PASS => true
  | _ => false

def RecordedResult.isWaived : RecordedResult → Bool
  | .WAIVED _ _ => true
  | _ => false

def RecordedResult.isManual : RecordedResult → Bool
  | .MANUAL => true
  | _ => false

/-- Modelled from the spec: evaluate one rule against the context and the
waiver lookup (rule_id_code → justification). -/
def evalRuleWithWaivers (ctx : ProjectContext) (waivers : List (String × String))
    (r : SpecRule) : RecordedResult :=
  match evaluateLogic ctx r.validation_logic with
  | .PASS => .PASS
  | .MANUAL => .MANUAL
  | .FAIL d =>
      match kvGet waivers r.rule_id_code with
      | some j => .WAIVED j d
      | none => .FAIL d

/-- Modelled from the spec: the aggregated report of section 4.4 step 8,
over (rule, recorded result) pairs. -/
structure SpecReport where
  blocking_failures : List (SpecRule × RecordedResult)
  warnings : List (SpecRule × RecordedResult)
  passes : List (SpecRule × RecordedResult)
  waivers : List (SpecRule × RecordedResult)
  can_proceed : Bool
deriving DecidableEq, Repr

/-- Modelled from the spec (section 4.4 steps 7-9): evaluate every rule in
order, bucket the results — blocking_failures = BLOCK ∧ FAIL not waived,
warnings = WARN ∧ FAIL not waived plus all MANUAL, passes, waivers — and
gate on blocking_failures being empty. -/
def specEvaluate (rules : List SpecRule) (waivers : List (String × String))
    (ctx : ProjectContext) : SpecReport :=
  let evald := rules.map (fun r => (r, evalRuleWithWaivers ctx waivers r))
  let blocking := evald.filter
    (fun p => p.2.isFail && p.1.validation_severity == Severity.BLOCK)
  let warns := evald.filter
    (fun p => p.2.isFail && p.1.validation_severity == Severity.WARN)
    ++ evald.filter (fun p => p.2.isManual)
  { blocking_failures := blocking
  , warnings := warns
  , passes := evald.filter (fun p => p.2.isPass)
  , waivers := evald.filter (fun p => p.2.isWaived)
  , can_proceed := blocking.isEmpty }

/-!
Claim theorems.
-/

/-- C1: for every project id (and evaluation instant), the report returned
by regulatory.evaluate satisfies can_proceed = (blocking_failures.length = 0),
and can_proceed is the constant true, so WARN-severity failures and MANUAL
results never affect it. -/
theorem C1_gate_correctness (projectId now : String) :
    (regulatory.evaluate projectId now).can_proceed
      = ((regulatory.evaluate projectId now).blocking_failures.length == 0)
    ∧ (regulatory.evaluate projectId now).can_proceed = true :=
  ⟨rfl, rfl⟩

/-- C2 counterexample: with rules, waivers and context all fixed (the stub
ignores them entirely), two evaluations at different instants produce
reports that differ — the timestamp field is the call time. -/
theorem C2_two_runs_differ :
    regulatory.evaluate "proj-1" "2026-01-01T00:00:00.000Z"
      ≠ regulatory.evaluate "proj-1" "2026-01-01T00:00:01.000Z" := by
  decide

/-- C2 amended: every field of the report except the timestamp is identical
across any two evaluations, and two evaluations at the same instant give a
byte-identical report. -/
theorem C2_deterministic_except_timestamp (pid1 pid2 t1 t2 : String) :
    (regulatory.evaluate pid1 t1).can_proceed = (regulatory.evaluate pid2 t2).can_proceed
    ∧ (regulatory.evaluate pid1 t1).blocking_failures
        = (regulatory.evaluate pid2 t2).blocking_failures
    ∧ (regulatory.evaluate pid1 t1).warnings = (regulatory.evaluate pid2 t2).warnings
    ∧ (regulatory.evaluate pid1 t1).passes = (regulatory.evaluate pid2 t2).passes
    ∧ (regulatory.evaluate pid1 t1).waivers = (regulatory.evaluate pid2 t2).waivers
    ∧ regulatory.evaluate pid1 t1 = regulatory.evaluate pid2 t1 :=
  ⟨rfl, rfl, rfl, rfl, rfl, rfl⟩

/-- C3: regulatory.waivers.add performs no validation at all — it succeeds
with the fixed value even for an empty or whitespace-only justification,
and it touches no stored state (its body reads and writes nothing). -/
theorem C3_add_accepts_empty_justification (projectId ruleIdCode : String) :
    regulatory.waivers.add projectId ruleIdCode ""
      = { rule_id_code := ruleIdCode, status := "waived" }
    ∧ regulatory.waivers.add projectId ruleIdCode "   "
      = { rule_id_code := ruleIdCode, status := "waived" } :=
  ⟨rfl, rfl⟩

/-- C4: running allocate on two different guidelines creates two disjoint
rule lists (distinct rule ids) that carry the same rule_id_code values
Q1A-001, Q1A-002, Q1A-003 — rule_id_code is not globally unique. -/
theorem C4_duplicate_rule_id_code :
    ((kvGet (regulatory.guidelines.allocate
        (regulatory.guidelines.allocate [] [] "guide-A" "rule-a1" "rule-a2" "rule-a3").1
        (regulatory.guidelines.allocate [] [] "guide-A" "rule-a1" "rule-a2" "rule-a3").2
        "guide-B" "rule-b1" "rule-b2" "rule-b3").2 "guide-A").getD []).map
          (fun r => r.rule_id_code)
      = ["Q1A-001", "Q1A-002", "Q1A-003"]
    ∧ ((kvGet (regulatory.guidelines.allocate
        (regulatory.guidelines.allocate [] [] "guide-A" "rule-a1" "rule-a2" "rule-a3").1
        (regulatory.guidelines.allocate [] [] "guide-A" "rule-a1" "rule-a2" "rule-a3").2
        "guide-B" "rule-b1" "rule-b2" "rule-b3").2 "guide-B").getD []).map
          (fun r => r.rule_id_code)
      = ["Q1A-001", "Q1A-002", "Q1A-003"]
    ∧ ((kvGet (regulatory.guidelines.allocate
        (regulatory.guidelines.allocate [] [] "guide-A" "rule-a1" "rule-a2" "rule-a3").1
        (regulatory.guidelines.allocate [] [] "guide-A" "rule-a1" "rule-a2" "rule-a3").2
        "guide-B" "rule-b1" "rule-b2" "rule-b3").2 "guide-A").getD []).map (fun r => r.id)
      ≠ ((kvGet (regulatory.guidelines.allocate
        (regulatory.guidelines.allocate [] [] "guide-A" "rule-a1" "rule-a2" "rule-a3").1
        (regulatory.guidelines.allocate [] [] "guide-A" "rule-a1" "rule-a2" "rule-a3").2
        "guide-B" "rule-b1" "rule-b2" "rule-b3").2 "guide-B").getD []).map (fun r => r.id) := by
  refine ⟨?_, ?_, ?_⟩ <;> decide

/-- C5: every rule written by regulatory.guidelines.allocate has status
pending_review, for any prior store, guideline id and generated ids. -/
theorem C5_allocate_all_pending_review (gs : List regulatory.Guideline)
    (store : regulatory.RulesStore) (gid id1 id2 id3 : String) :
    ((kvGet (regulatory.guidelines.allocate gs store gid id1 id2 id3).2 gid).getD []).all
      (fun r => r.status == "pending_review") = true := by
  show ((kvGet (kvSet store gid (regulatory.guidelines.sampleRules id1 id2 id3)) gid).getD
      []).all (fun r => r.status == "pending_review") = true
  rw [kvGet_kvSet_self]
  rfl

/-- C6: updateRuleStatus lets a rule reach status overridden without any
override_justification (the first update below), and stores an
override_justification on a rule whose status is not overridden (the second
update) — the claimed iff-invariant fails in both directions. -/
theorem C6_overridden_without_justification :
    ((kvGet (regulatory.guidelines.updateRuleStatus
        (regulatory.guidelines.allocate [] [] "guide-A" "rule-a1" "rule-a2" "rule-a3").2
        "guide-A" "rule-a1" "overridden" none) "guide-A").getD []).map
          (fun r => (r.id, r.status, r.override_justification))
      = [("rule-a1", "overridden", none), ("rule-a2", "pending_review", none),
         ("rule-a3", "pending_review", none)]
    ∧ ((kvGet (regulatory.guidelines.updateRuleStatus
        (regulatory.guidelines.allocate [] [] "guide-A" "rule-a1" "rule-a2" "rule-a3").2
        "guide-A" "rule-a2" "confirmed" (some "looks fine")) "guide-A").getD []).map
          (fun r => (r.id, r.status, r.override_justification))
      = [("rule-a1", "pending_review", none), ("rule-a2", "confirmed", some "looks fine"),
         ("rule-a3", "pending_review", none)] := by
  refine ⟨?_, ?_⟩ <;> decide

/-- C8: a rule whose validation_logic is manual_review_required evaluates
to the MANUAL outcome, which is neither PASS nor any FAIL; appending such a
rule to an evaluation pass leaves blocking_failures and can_proceed
unchanged (it never blocks by itself) and appends the rule to the warnings
bucket (it is flagged). -/
theorem C8_manual_review_is_manual (rid code : String) (sev : Severity)
    (rules : List SpecRule) (ws : List (String × String)) (ctx : ProjectContext) :
    evaluateLogic ctx "manual_review_required" = RuleResult.MANUAL
    ∧ RuleResult.MANUAL ≠ RuleResult.PASS
    ∧ (∀ d, RuleResult.MANUAL ≠ RuleResult.FAIL d)
    ∧ (specEvaluate (rules ++ [⟨rid, code, sev, "manual_review_required"⟩]) ws ctx).blocking_failures
        = (specEvaluate rules ws ctx).blocking_failures
    ∧ (specEvaluate (rules ++ [⟨rid, code, sev, "manual_review_required"⟩]) ws ctx).can_proceed
        = (specEvaluate rules ws ctx).can_proceed
    ∧ (specEvaluate (rules ++ [⟨rid, code, sev, "manual_review_required"⟩]) ws ctx).warnings
        = (specEvaluate rules ws ctx).warnings
          ++ [(⟨rid, code, sev, "manual_review_required"⟩, RecordedResult.MANUAL)] := by
  have hparse : parseValidationLogic "manual_review_required" = some LExpr.manualReview := by
    decide
  have hEval : evaluateLogic ctx "manual_review_required" = RuleResult.MANUAL := by
    simp [evaluateLogic, hparse, evalLExpr]
  have hRec : evalRuleWithWaivers ctx ws ⟨rid, code, sev, "manual_review_required"⟩
      = RecordedResult.MANUAL := by
    simp [evalRuleWithWaivers, hEval]
  refine ⟨hEval, by simp, fun d => by simp, ?_, ?_, ?_⟩ <;>
    simp [specEvaluate, List.map_append, List.filter_append, hRec,
      RecordedResult.isFail, RecordedResult.isManual, RecordedResult.isPass,
      RecordedResult.isWaived, List.append_assoc]

/-- C7: for every project and instant — in particular a phase-1 project
with no rules, no waivers and a null stability_commitment_statement — the
report of regulatory.evaluate never mentions PHASE-I-COMMIT or
PHASE-I-STUDY, and can_proceed is true, never false. -/
theorem C7_stub_report_lacks_phase_rules (projectId now : String) :
    (((regulatory.evaluate projectId now).blocking_failures
        ++ (regulatory.evaluate projectId now).warnings
        ++ (regulatory.evaluate projectId now).passes
        ++ (regulatory.evaluate projectId now).waivers).all
      (fun e => e.rule_id_code != "PHASE-I-COMMIT" && e.rule_id_code != "PHASE-I-STUDY")) = true
    ∧ (regulatory.evaluate projectId now).can_proceed = true :=
  ⟨rfl, rfl⟩

/-- Specification of projects.delete for claim C9: the deleted project's
record, documents, document texts, studies, lots, conditions, attributes,
generation runs and generated HTML are removed, while every piece of stored
data belonging to any other project q is unchanged. -/
def deleteSpec (s : Storage) (pid q : String) : Prop :=
  ((projects.delete s pid).projects.all (fun p => p.id != pid) = true)
  ∧ kvGet (projects.delete s pid).documents pid = none
  ∧ (∀ d ∈ (kvGet s.documents pid).getD [],
      kvGet (projects.delete s pid).document_texts d.id = none)
  ∧ kvGet (projects.delete s pid).studies pid = none
  ∧ kvGet (projects.delete s pid).lots pid = none
  ∧ kvGet (projects.delete s pid).conditions pid = none
  ∧ kvGet (projects.delete s pid).attributes pid = none
  ∧ ((projects.delete s pid).generation_runs.all (fun r => r.project_id != some pid) = true)
  ∧ (∀ r ∈ s.generation_runs, r.project_id = some pid →
      kvGet (projects.delete s pid).generated_html r.run_id = none)
  ∧ (∀ p ∈ s.projects, p.id = q → p ∈ (projects.delete s pid).projects)
  ∧ kvGet (projects.delete s pid).documents q = kvGet s.documents q
  ∧ kvGet (projects.delete s pid).studies q = kvGet s.studies q
  ∧ kvGet (projects.delete s pid).lots q = kvGet s.lots q
  ∧ kvGet (projects.delete s pid).conditions q = kvGet s.conditions q
  ∧ kvGet (projects.delete s pid).attributes q = kvGet s.attributes q
  ∧ (∀ tid : String, tid ∉ ((kvGet s.documents pid).getD []).map (fun d => d.id) →
      kvGet (projects.delete s pid).document_texts tid = kvGet s.document_texts tid)
  ∧ (∀ r ∈ s.generation_runs, r.project_id = some q →
      r ∈ (projects.delete s pid).generation_runs)
  ∧ (∀ rid : String,
      rid ∉ (s.generation_runs.filter
        (fun r => r.project_id == some pid)).map (fun r => r.run_id) →
      kvGet (projects.delete s pid).generated_html rid = kvGet s.generated_html rid)

/-- C9: projects.delete removes exactly the given project's stored data —
its project record, documents, document texts, studies, lots, conditions,
attributes, generation runs and generated HTML — and leaves every other
project's stored data unchanged. -/
theorem C9_delete_project_frame (s : Storage) (pid q : String) (hq : q ≠ pid) :
    deleteSpec s pid q := by
  refine ⟨?_, ?_, ?_, ?_, ?_, ?_, ?_, ?_, ?_, ?_, ?_, ?_, ?_, ?_, ?_, ?_, ?_, ?_⟩
  · show (s.projects.filter (fun p => p.id != pid)).all (fun p => p.id != pid) = true
    rw [List.all_eq_true]
    intro p hp
    exact (List.mem_filter.mp hp).2
  · exact kvGet_kvErase_self s.documents pid
  · intro d hd
    show kvGet (kvEraseAll s.document_texts
      (((kvGet s.documents pid).getD []).map (fun d => d.id))) d.id = none
    exact kvGet_kvEraseAll_mem _ _ _ (List.mem_map_of_mem _ hd)
  · exact kvGet_kvErase_self s.studies pid
  · exact kvGet_kvErase_self s.lots pid
  · exact kvGet_kvErase_self s.conditions pid
  · exact kvGet_kvErase_self s.attributes pid
  · show (s.generation_runs.filter (fun r => r.project_id != some pid)).all
      (fun r => r.project_id != some pid) = true
    rw [List.all_eq_true]
    intro r hr
    exact (List.mem_filter.mp hr).2
  · intro r hr hrp
    show kvGet (kvEraseAll s.generated_html
      ((s.generation_runs.filter (fun r => r.project_id == some pid)).map
        (fun r => r.run_id))) r.run_id = none
    exact kvGet_kvEraseAll_mem _ _ _
      (List.mem_map_of_mem _ (List.mem_filter.mpr ⟨hr, by simp [hrp]⟩))
  · intro p hp hpq
    show p ∈ s.projects.filter (fun p => p.id != pid)
    refine List.mem_filter.mpr ⟨hp, ?_⟩
    rw [hpq]
    exact bne_iff_ne.mpr hq
  · exact kvGet_kvErase_ne s.documents pid q hq
  · exact kvGet_kvErase_ne s.studies pid q hq
  · exact kvGet_kvErase_ne s.lots pid q hq
  · exact kvGet_kvErase_ne s.conditions pid q hq
  · exact kvGet_kvErase_ne s.attributes pid q hq
  · intro tid htid
    exact kvGet_kvEraseAll_not_mem _ _ _ htid
  · intro r hr hrq
    show r ∈ s.generation_runs.filter (fun r => r.project_id != some pid)
    refine List.mem_filter.mpr ⟨hr, ?_⟩
    rw [hrq]
    exact bne_iff_ne.mpr (fun e => hq (Option.some.inj e))
  · intro rid hrid
    exact kvGet_kvEraseAll_not_mem _ _ _ hrid

/-- Core preservation step for C10: overwrite the documents entry for pid
and set the first project with that id to the new length; with unique
project ids every project's count then matches its stored documents. -/
theorem docCount_updateFirst
    (docs docs2 : List (String × List DocumentFile)) (pid : String) (n : Nat)
    (h2self : ((kvGet docs2 pid).getD []).length = n)
    (h2ne : ∀ k, k ≠ pid → kvGet docs2 k = kvGet docs k) :
    ∀ ps : List Project,
      (ps.map (fun p => p.id)).Nodup →
      (∀ p ∈ ps, p.document_count = ((kvGet docs p.id).getD []).length) →
      ∀ p ∈ updateFirstProject ps pid (fun p => { p with document_count := n }),
        p.document_count = ((kvGet docs2 p.id).getD []).length := by
  intro ps
  induction ps with
  | nil =>
    intro _ _ p hp
    simp only [updateFirstProject] at hp
    exact absurd hp (List.not_mem_nil p)
  | cons hd tl ih =>
    intro hn hinv p hp
    rw [List.map_cons, List.nodup_cons] at hn
    obtain ⟨hhd, htl⟩ := hn
    simp only [updateFirstProject] at hp
    by_cases he : hd.id = pid
    · rw [if_pos he] at hp
      rcases List.mem_cons.mp hp with h1 | h1
      · subst h1
        show n = ((kvGet docs2 hd.id).getD []).length
        rw [he, h2self]
      · have hne : p.id ≠ pid := by
          intro e
          exact hhd (by rw [he, ← e]; exact List.mem_map_of_mem _ h1)
        rw [h2ne p.id hne]
        exact hinv p (List.mem_cons_of_mem _ h1)
    · rw [if_neg he] at hp
      rcases List.mem_cons.mp hp with h1 | h1
      · subst h1
        rw [h2ne p.id he]
        exact hinv p (List.mem_cons_self _ _)
      · exact ih htl (fun x hx => hinv x (List.mem_cons_of_mem _ hx)) p h1

/-- Document-count invariant for a state whose documents entry for pid was
overwritten with L, whose first project with id pid was set to L.length,
and whose other fields changed arbitrarily in ways docCountInv ignores. -/
theorem docCountInv_set (s : Storage) (pid : String) (L : List DocumentFile)
    (texts2 : List (String × String))
    (hn : (s.projects.map (fun p => p.id)).Nodup)
    (hinv : docCountInv s = true) :
    docCountInv { s with
      documents := kvSet s.documents pid L,
      document_texts := texts2,
      projects := updateFirstProject s.projects pid
        (fun p => { p with document_count := L.length }) } = true := by
  simp only [docCountInv, List.all_eq_true, beq_iff_eq] at hinv ⊢
  exact docCount_updateFirst s.documents (kvSet s.documents pid L) pid L.length
    (by rw [kvGet_kvSet_self]; rfl) (fun k hk => kvGet_kvSet_ne _ _ _ _ hk)
    s.projects hn hinv

/-- C10: for a state with unique project ids in which every project's
document_count matches its stored documents, both documents.upload and
documents.delete preserve that invariant — in particular the operated
project's stored document_count equals its stored document count after the
operation. -/
theorem C10_document_count_invariant (s : Storage)
    (pid filename extractedText : String) (classification : Option String)
    (docId now delDocId : String)
    (hn : (s.projects.map (fun p => p.id)).Nodup)
    (hinv : docCountInv s = true) :
    docCountInv (documents.upload s pid filename extractedText classification docId now).1 = true
    ∧ docCountInv (documents.delete s pid delDocId) = true := by
  constructor
  · exact docCountInv_set s pid
      ((kvGet s.documents pid).getD [] ++
        [{ id := docId, filename := filename, original_filename := filename
         , file_type := documents.fileTypeOf filename
         , classification := documents.classificationOf classification
         , authority := "supporting", checksum_sha256 := "local-storage"
         , file_size_bytes := extractedText.length, uploaded_at := now }])
      (kvSet s.document_texts docId extractedText) hn hinv
  · rcases hdel : kvGet s.documents pid with _ | ds
    · have hzero : documents.delete s pid delDocId = s := by
        simp [documents.delete, hdel]
      rw [hzero]
      exact hinv
    · have hdef : documents.delete s pid delDocId =
        { s with
          documents := kvSet s.documents pid (ds.filter (fun d => d.id != delDocId)),
          document_texts := kvErase s.document_texts delDocId,
          projects := updateFirstProject s.projects pid
            (fun p => { p with document_count :=
              (ds.filter (fun d => d.id != delDocId)).length }) } := by
        simp [documents.delete, hdel]
      rw [hdef]
      exact docCountInv_set s pid (ds.filter (fun d => d.id != delDocId))
        (kvErase s.document_texts delDocId) hn hinv

/-- A small concrete two-project storage state used as witness input. -/
def sampleStorage : Storage :=
  { projects :=
      [ { id := "p1", name := "Alpha", status := "draft",
          clinical_phase := some "phase_1", numbering_mode := some "ctd",
          created_by := { id := "user-1", display_name := "Local User", role := "author" },
          document_count := 1, created_at := "t0", updated_at := "t0" },
        { id := "p2", name := "Beta", status := "draft",
          clinical_phase := some "phase_1", numbering_mode := some "ctd",
          created_by := { id := "user-1", display_name := "Local User", role := "author" },
          document_count := 1, created_at := "t0", updated_at := "t0" } ],
    documents :=
      [ ("p1", [{ id := "d1", filename := "a.pdf", original_filename := "a.pdf",
                  file_type := "pdf", classification := "stability_report",
                  authority := "supporting", checksum_sha256 := "local-storage",
                  file_size_bytes := 5, uploaded_at := "t1" }]),
        ("p2", [{ id := "d2", filename := "b.pdf", original_filename := "b.pdf",
                  file_type := "pdf", classification := "coa",
                  authority := "supporting", checksum_sha256 := "local-storage",
                  file_size_bytes := 4, uploaded_at := "t1" }]) ],
    document_texts := [("d1", "alpha"), ("d2", "beta")],
    studies :=
      [ ("p1", [{ id := "s1", product_id := "p1", study_type := "long_term",
                  extraction_status := "confirmed" }]),
        ("p2", [{ id := "s2", product_id := "p2", study_type := "accelerated",
                  extraction_status := "confirmed" }]) ],
    lots := [("p1", []), ("p2", [])],
    conditions := [("p1", []), ("p2", [])],
    attributes := [("p1", []), ("p2", [])],
    generation_runs :=
      [ { run_id := "g1", project_id := some "p1", status := "completed", created_at := "t2" },
        { run_id := "g2", project_id := some "p2", status := "completed", created_at := "t2" } ],
    generated_html := [("g1", "<html>A</html>"), ("g2", "<html>B</html>")] }

/-- C9 witness: the frame theorem applied to the concrete two-project
state, deleting project p1 and observing project p2. -/
theorem C9_delete_project_frame_witness :
    ("p2" : String) ≠ "p1" ∧ deleteSpec sampleStorage "p1" "p2" :=
  ⟨by decide, C9_delete_project_frame sampleStorage "p1" "p2" (by decide)⟩

/-- C10 witness: the invariant theorem applied to the concrete state, with
an upload of a new document d3 to p1 and a delete of d1 from p1. -/
theorem C10_document_count_invariant_witness :
    (sampleStorage.projects.map (fun p => p.id)).Nodup
    ∧ docCountInv sampleStorage = true
    ∧ (docCountInv
        (documents.upload sampleStorage "p1" "c.pdf" "gamma" none "d3" "t3").1 = true
      ∧ docCountInv (documents.delete sampleStorage "p1" "d1") = true) :=
  ⟨by decide, by decide,
   C10_document_count_invariant sampleStorage "p1" "c.pdf" "gamma" none "d3" "t3" "d1"
     (by decide) (by decide)⟩

end CTD
